import Mathlib

/-!
Shallow embedding of the FareHarbor webhook receiver
(`src/routes/webhookRoutes.js`): signature verification, payload
normalization, customer/booking upsert reconciliation, cancellation,
audit logging, and the dispatching POST handler.

JavaScript conventions modelled explicitly:
* an absent (`undefined`/`null`) field is `none`;
* JS truthiness: `""` and `0` are falsy, so `a || b` on strings/numbers
  falls through on `none`, `some ""`, `some 0`;
* a thrown storage error is `Except.error`; a `try/catch` that swallows
  the error returns the unchanged state;
* each database query that can fail is given an explicit failure flag,
  standing for the storage layer's success/failure on that query.
-/

namespace Webhook

/-- JS truthiness of an optional string value: `undefined`, `null` and `""`
are falsy. -/
def truthyS : Option String → Bool
  | none => false
  | some s => s ≠ ""

/-- JS `a || b` on optional string values. -/
def jsOrS (a b : Option String) : Option String :=
  if truthyS a then a else b

/-- JS `a || d` where `d` is a string literal default: yields `d` when `a`
is falsy. -/
def jsGetS (a : Option String) (d : String) : String :=
  match a with
  | none => d
  | some s => if s = "" then d else s

/-- JS truthiness of an optional numeric value: `undefined`, `null` and `0`
are falsy. -/
def truthyN : Option Int → Bool
  | none => false
  | some n => n ≠ 0

/-- JS `a || b` on optional numeric values. -/
def jsOrN (a b : Option Int) : Option Int :=
  if truthyN a then a else b

/-- JS `a || d` where `d` is a numeric literal default. -/
def jsGetN (a : Option Int) (d : Int) : Int :=
  match a with
  | none => d
  | some n => if n = 0 then d else n

/-- JS `a || b` on object values: any present object is truthy. -/
def jsOrO {α : Type} (a b : Option α) : Option α :=
  if a.isSome then a else b

/-- A nested contact/customer object: `{email, name, phone}`. -/
structure ContactInfo where
  email : Option String := none
  name : Option String := none
  phone : Option String := none
deriving Repr, DecidableEq

/-- The argument of `saveOrUpdateCustomer` (`booking.contact` or
`booking.customer`), which may itself carry a nested `customer` object. -/
structure CustomerData where
  email : Option String := none
  name : Option String := none
  phone : Option String := none
  customer : Option ContactInfo := none
deriving Repr, DecidableEq

/-- A FareHarbor item object: `{name}`. -/
structure Item where
  name : Option String := none
deriving Repr, DecidableEq

/-- A FareHarbor availability object: `{item, start_datetime}`. -/
structure Availability where
  item : Option Item := none
  start_datetime : Option String := none
deriving Repr, DecidableEq

/-- The loosely structured booking payload (`payload` of the webhook body),
with every field optional, exactly the fields `saveBooking`,
`saveOrUpdateCustomer` and `handleBookingCancelled` consult. -/
structure BookingData where
  display_id : Option String := none
  pk : Option String := none
  id : Option String := none
  contact : Option CustomerData := none
  customer : Option CustomerData := none
  customer_email : Option String := none
  customer_name : Option String := none
  availability : Option Availability := none
  item : Option Item := none
  tour_name : Option String := none
  start_datetime : Option String := none
  tour_date : Option String := none
  customer_count : Option Int := none
  passenger_count : Option Int := none
  amount : Option Int := none
  price : Option Int := none
  status : Option String := none
  booking_source : Option String := none
  source : Option String := none
  special_requests : Option String := none
deriving Repr, DecidableEq

/-- `bookingData.display_id || bookingData.pk || bookingData.id`
(`saveBooking`, line 74). -/
def resolveId (b : BookingData) : Option String :=
  jsOrS (jsOrS b.display_id b.pk) b.id

/-- `bookingData.contact?.email || bookingData.customer?.email ||
bookingData.customer_email` (`saveBooking`, line 75). -/
def customerEmailOf (b : BookingData) : Option String :=
  jsOrS (jsOrS (b.contact.bind CustomerData.email)
               (b.customer.bind CustomerData.email)) b.customer_email

/-- `bookingData.contact?.name || bookingData.customer?.name ||
bookingData.customer_name` (`saveBooking`, line 76). -/
def customerNameOf (b : BookingData) : Option String :=
  jsOrS (jsOrS (b.contact.bind CustomerData.name)
               (b.customer.bind CustomerData.name)) b.customer_name

/-- `bookingData.availability?.item?.name || bookingData.item?.name ||
bookingData.tour_name` (`saveBooking`, line 77). -/
def tourNameOf (b : BookingData) : Option String :=
  jsOrS (jsOrS ((b.availability.bind Availability.item).bind Item.name)
               (b.item.bind Item.name)) b.tour_name

/-- `bookingData.availability?.start_datetime || bookingData.start_datetime
|| bookingData.tour_date` (`saveBooking`, line 78). -/
def tourDateOf (b : BookingData) : Option String :=
  jsOrS (jsOrS (b.availability.bind Availability.start_datetime)
               b.start_datetime) b.tour_date

/-- `bookingData.customer_count || bookingData.passenger_count || 1`
(`saveBooking`, line 79). -/
def passengerCountOf (b : BookingData) : Int :=
  jsGetN (jsOrN b.customer_count b.passenger_count) 1

/-- `bookingData.amount || bookingData.price || 0` (`saveBooking`,
line 80). -/
def amountOf (b : BookingData) : Int :=
  jsGetN (jsOrN b.amount b.price) 0

/-- `bookingData.status || 'confirmed'` (`saveBooking`, line 81). -/
def statusOf (b : BookingData) : String :=
  jsGetS b.status "confirmed"

/-- `bookingData.booking_source || bookingData.source || 'fareharbor'`
(`saveBooking`, line 82). -/
def bookingSourceOf (b : BookingData) : String :=
  jsGetS (jsOrS b.booking_source b.source) "fareharbor"

/-- The flat canonical booking record `saveBooking` extracts from a payload
before persisting it (the verbatim payload is carried separately). -/
structure NormalizedBooking where
  fareharborId : String
  customerEmail : Option String
  customerName : Option String
  tourName : Option String
  tourDate : Option String
  passengerCount : Int
  amount : Int
  status : String
  bookingSource : String
deriving Repr, DecidableEq

/-- The normalization step of `saveBooking`: extract the canonical record,
or `none` when no booking identifier resolves (`if (!fareharborId) return`,
lines 84-87). -/
def normalizeBooking (b : BookingData) : Option NormalizedBooking :=
  match resolveId b with
  | none => none
  | some fid =>
    if fid = "" then none
    else some
      { fareharborId := fid
        customerEmail := customerEmailOf b
        customerName := customerNameOf b
        tourName := tourNameOf b
        tourDate := tourDateOf b
        passengerCount := passengerCountOf b
        amount := amountOf b
        status := statusOf b
        bookingSource := bookingSourceOf b }

/-- One row of the `bookings` relation. -/
structure BookingRow where
  fareharbor_id : String
  customer_id : Option Nat
  customer_email : Option String
  customer_name : Option String
  tour_name : Option String
  tour_date : Option String
  passenger_count : Int
  amount : Int
  status : String
  booking_source : String
  special_requests : Option String
  raw_data : BookingData
deriving Repr, DecidableEq

/-- One row of the `customers` relation. -/
structure CustomerRow where
  id : Nat
  email : String
  name : Option String
  phone : Option String
deriving Repr, DecidableEq

/-- The parsed webhook request body: `{event_type, payload}`. -/
structure RequestBody where
  event_type : Option String
  payload : Option BookingData
deriving Repr, DecidableEq

/-- One row of the `webhook_events` relation (the audit log). -/
structure AuditEntry where
  event_type : Option String
  fareharbor_id : Option String
  raw_payload : RequestBody
  processing_status : String
deriving Repr, DecidableEq

/-- The relational store: `customers` (with its serial id counter),
`bookings`, and the `webhook_events` audit log. -/
structure DB where
  customers : List CustomerRow
  nextCustomerId : Nat
  bookings : List BookingRow
  webhook_events : List AuditEntry
deriving Repr, DecidableEq

/-- Which storage queries fail during one request (the storage layer is an
external collaborator; a `true` flag makes the corresponding query
throw). -/
structure FailureFlags where
  customerFails : Bool := false
  bookingFails : Bool := false
  cancelFails : Bool := false
  auditFails : Bool := false
deriving Repr, DecidableEq

/-- `saveWebhookEvent`: INSERT one audit row; its own `try/catch` swallows
a storage failure (lines 40-49). -/
def saveWebhookEvent (fails : Bool) (db : DB) (eventType : Option String)
    (fhId : Option String) (raw : RequestBody) (status : String) : DB :=
  if fails then db
  else { db with webhook_events :=
          db.webhook_events ++ [⟨eventType, fhId, raw, status⟩] }

/-- `saveOrUpdateCustomer` (lines 51-70): resolve email/name/phone with the
`x || customer?.x` fallback, return `null` without touching the store when
no customer object or no truthy email, upsert on the unique email otherwise
(`ON CONFLICT (email) DO UPDATE SET name, phone ... RETURNING id`); a
storage failure is caught and returns `null`. -/
def saveOrUpdateCustomer (fails : Bool) (db : DB) (cd : Option CustomerData) :
    DB × Option Nat :=
  match cd with
  | none => (db, none)
  | some c =>
    let email := jsOrS c.email (c.customer.bind ContactInfo.email)
    let name := jsOrS c.name (c.customer.bind ContactInfo.name)
    let phone := jsOrS c.phone (c.customer.bind ContactInfo.phone)
    if ¬ truthyS email then (db, none)
    else if fails then (db, none)
    else
      let e := email.getD ""
      match db.customers.find? (fun r => r.email = e) with
      | some r =>
        ({ db with customers := db.customers.map (fun row =>
             if row.email = e then { row with name := name, phone := phone }
             else row) }, some r.id)
      | none =>
        ({ db with
             customers := db.customers ++
               [⟨db.nextCustomerId, e, name, phone⟩]
             nextCustomerId := db.nextCustomerId + 1 }, some db.nextCustomerId)

/-- The booking row `saveBooking`'s INSERT would create from a canonical
record, the customer reference, and the verbatim payload. -/
def rowOfBooking (n : NormalizedBooking) (customerId : Option Nat)
    (b : BookingData) : BookingRow :=
  { fareharbor_id := n.fareharborId
    customer_id := customerId
    customer_email := n.customerEmail
    customer_name := n.customerName
    tour_name := n.tourName
    tour_date := n.tourDate
    passenger_count := n.passengerCount
    amount := n.amount
    status := n.status
    booking_source := n.bookingSource
    special_requests := jsOrS b.special_requests none
    raw_data := b }

/-- `INSERT INTO bookings ... ON CONFLICT (fareharbor_id) DO UPDATE SET
status, amount, passenger_count, customer_email, customer_name, tour_name,
tour_date` (lines 89-95): on an existing identifier only those mutable
fields are overwritten; otherwise the full row is inserted. -/
def upsertBooking (rows : List BookingRow) (r : BookingRow) : List BookingRow :=
  if rows.any (fun row => row.fareharbor_id = r.fareharbor_id) then
    rows.map (fun row =>
      if row.fareharbor_id = r.fareharbor_id then
        { row with
            status := r.status
            amount := r.amount
            passenger_count := r.passenger_count
            customer_email := r.customer_email
            customer_name := r.customer_name
            tour_name := r.tour_name
            tour_date := r.tour_date }
      else row)
  else rows ++ [r]

/-- `saveBooking` (lines 72-100): normalize; on a missing identifier log
and return without touching the store (no throw); otherwise run the upsert,
rethrowing a storage failure (`catch ... throw error`). -/
def saveBooking (fails : Bool) (db : DB) (b : BookingData)
    (customerId : Option Nat) : Except Unit DB :=
  match normalizeBooking b with
  | none => .ok db
  | some n =>
    if fails then .error ()
    else .ok { db with bookings := upsertBooking db.bookings (rowOfBooking n customerId b) }

/-- `handleBookingCreated` (lines 103-107): customer upsert on
`booking.contact || booking.customer`, then the booking upsert; an
`undefined` payload throws a TypeError at the first property access. -/
def handleBookingCreated (customerFails bookingFails : Bool) (db : DB)
    (booking : Option BookingData) : Except Unit DB :=
  match booking with
  | none => .error ()
  | some b =>
    let step := saveOrUpdateCustomer customerFails db (jsOrO b.contact b.customer)
    saveBooking bookingFails step.1 b step.2

/-- `handleBookingUpdated` (lines 109-113): identical body to
`handleBookingCreated`. -/
def handleBookingUpdated (customerFails bookingFails : Bool) (db : DB)
    (booking : Option BookingData) : Except Unit DB :=
  match booking with
  | none => .error ()
  | some b =>
    let step := saveOrUpdateCustomer customerFails db (jsOrO b.contact b.customer)
    saveBooking bookingFails step.1 b step.2

/-- The row update of `handleBookingCancelled`: `UPDATE bookings SET
status = 'cancelled' WHERE fareharbor_id = $1`; a SQL `null` parameter
matches no row. -/
def cancelUpdate (rows : List BookingRow) (fid : Option String) :
    List BookingRow :=
  rows.map (fun row =>
    if some row.fareharbor_id = fid then { row with status := "cancelled" }
    else row)

/-- `handleBookingCancelled` (lines 115-125): resolve the identifier as
`booking.display_id || booking.pk` and update the matching row's status;
the whole body is inside `try/catch`, so both a storage failure and the
TypeError from an `undefined` payload are swallowed. -/
def handleBookingCancelled (fails : Bool) (db : DB)
    (booking : Option BookingData) : DB :=
  match booking with
  | none => db
  | some b =>
    if fails then db
    else { db with bookings := cancelUpdate db.bookings (jsOrS b.display_id b.pk) }

/-- An HTTP response: status code plus the `status` field of the JSON
body. -/
structure HttpResponse where
  code : Nat
  status : String
deriving Repr, DecidableEq

/-- `router.post('/')` after signature verification (lines 128-154): audit
the event with status `success`, dispatch on `event_type`, answer 200 on
the happy path; a thrown error is caught, a second audit entry with status
`error` is written, and 500 is answered. -/
def processWebhook (fl : FailureFlags) (db : DB) (body : RequestBody) :
    DB × HttpResponse :=
  let fhId := jsOrS (body.payload.bind BookingData.display_id)
                    (body.payload.bind BookingData.pk)
  let db1 := saveWebhookEvent fl.auditFails db body.event_type fhId body "success"
  if body.event_type = some "booking.created" then
    match handleBookingCreated fl.customerFails fl.bookingFails db1 body.payload with
    | .ok db2 => (db2, ⟨200, "success"⟩)
    | .error _ =>
      (saveWebhookEvent fl.auditFails db1 body.event_type fhId body "error",
       ⟨500, "error"⟩)
  else if body.event_type = some "booking.updated" then
    match handleBookingUpdated fl.customerFails fl.bookingFails db1 body.payload with
    | .ok db2 => (db2, ⟨200, "success"⟩)
    | .error _ =>
      (saveWebhookEvent fl.auditFails db1 body.event_type fhId body "error",
       ⟨500, "error"⟩)
  else if body.event_type = some "booking.cancelled" then
    (handleBookingCancelled fl.cancelFails db1 body.payload, ⟨200, "success"⟩)
  else
    (db1, ⟨200, "success"⟩)

/-- Outcome of the signature middleware: `next()` or a 401 rejection with
the given error message. -/
inductive VerifyOutcome where
  | pass : VerifyOutcome
  | reject401 : String → VerifyOutcome
deriving Repr, DecidableEq

/-- `signature.startsWith('sha256=')`, spelled out on the character
sequence. -/
def hasScheme (s : String) : Bool :=
  s.toList.take 7 = "sha256=".toList

/-- `signature.startsWith('sha256=') ? signature.slice(7) : signature`. -/
def stripScheme (s : String) : String :=
  if hasScheme s then ⟨s.toList.drop 7⟩ else s

/-- Node's `crypto.timingSafeEqual`: throws when the two buffers have
different lengths, otherwise reports byte equality (in constant time, a
property outside this functional embedding). -/
def timingSafeEqual (a b : String) : Except Unit Bool :=
  if a.length = b.length then .ok (a = b) else .error ()

/-- `verifyWebhookSignature` (lines 15-37). The HMAC-SHA256 hex digest
primitive is a parameter (external crypto collaborator): `hmacHex secret
body` stands for `crypto.createHmac('sha256', secret).update(body)
.digest('hex')`. No secret configured → `next()`; no signature → 401;
otherwise the digest is compared with the scheme-stripped signature via
`timingSafeEqual` inside `try/catch`, every exception turning into 401. -/
def verifyWebhookSignature (hmacHex : String → String → String)
    (webhookSecret signature : Option String) (rawBody : String) :
    VerifyOutcome :=
  if ¬ truthyS webhookSecret then .pass
  else if ¬ truthyS signature then .reject401 "No signature provided"
  else
    let expected := hmacHex (webhookSecret.getD "") rawBody
    let provided := stripScheme (signature.getD "")
    match timingSafeEqual expected provided with
    | .ok true => .pass
    | .ok false => .reject401 "Invalid signature"
    | .error _ => .reject401 "Signature verification failed"

/-- Number of booking rows carrying a given provider identifier. -/
def countFid (rows : List BookingRow) (fid : String) : Nat :=
  (rows.filter (fun r => r.fareharbor_id = fid)).length

/-- All-queries-succeed failure flags. -/
def noFailures : FailureFlags :=
  ⟨false, false, false, false⟩

section Lemmas

lemma jsOrS_of_falsy {a : Option String} (b : Option String)
    (h : truthyS a = false) : jsOrS a b = b := by
  unfold jsOrS
  rw [h]
  rfl

lemma jsOrS_of_truthy {a : Option String} (b : Option String)
    (h : truthyS a = true) : jsOrS a b = a := by
  unfold jsOrS
  rw [h]
  rfl

lemma saveWebhookEvent_bookings (f : Bool) (db : DB) (et fid : Option String)
    (raw : RequestBody) (st : String) :
    (saveWebhookEvent f db et fid raw st).bookings = db.bookings := by
  unfold saveWebhookEvent
  split <;> rfl

lemma saveWebhookEvent_false_events (db : DB) (et fid : Option String)
    (raw : RequestBody) (st : String) :
    (saveWebhookEvent false db et fid raw st).webhook_events =
      db.webhook_events ++ [⟨et, fid, raw, st⟩] := rfl

lemma saveOrUpdateCustomer_bookings (f : Bool) (db : DB)
    (cd : Option CustomerData) :
    ((saveOrUpdateCustomer f db cd).1).bookings = db.bookings := by
  unfold saveOrUpdateCustomer
  cases cd with
  | none => rfl
  | some c =>
    dsimp only
    split
    · rfl
    · split
      · rfl
      · split <;> rfl

lemma saveOrUpdateCustomer_events (f : Bool) (db : DB)
    (cd : Option CustomerData) :
    ((saveOrUpdateCustomer f db cd).1).webhook_events = db.webhook_events := by
  unfold saveOrUpdateCustomer
  cases cd with
  | none => rfl
  | some c =>
    dsimp only
    split
    · rfl
    · split
      · rfl
      · split <;> rfl

lemma saveOrUpdateCustomer_fails (db : DB) (cd : Option CustomerData) :
    saveOrUpdateCustomer true db cd = (db, none) := by
  unfold saveOrUpdateCustomer
  cases cd with
  | none => rfl
  | some c =>
    dsimp only
    split
    · rfl
    · rfl

end Lemmas

/-- C4: for every payload normalized into a canonical record, an absent
passenger count defaults to 1, an absent amount to 0, an absent status to
`confirmed`, and an absent booking source to the provider label
`fareharbor`. -/
theorem C4_default_application (b : BookingData) (n : NormalizedBooking)
    (hn : normalizeBooking b = some n)
    (h1 : b.customer_count = none) (h2 : b.passenger_count = none)
    (h3 : b.amount = none) (h4 : b.price = none)
    (h5 : b.status = none) (h6 : b.booking_source = none)
    (h7 : b.source = none) :
    n.passengerCount = 1 ∧ n.amount = 0 ∧ n.status = "confirmed" ∧
      n.bookingSource = "fareharbor" := by
  unfold normalizeBooking at hn
  split at hn
  · exact absurd hn (by simp)
  · split at hn
    · exact absurd hn (by simp)
    · have hn' := (Option.some.injEq _ _).mp hn
      subst hn'
      refine ⟨?_, ?_, ?_, ?_⟩
      · simp [passengerCountOf, h1, h2, jsOrN, truthyN, jsGetN]
      · simp [amountOf, h3, h4, jsOrN, truthyN, jsGetN]
      · simp [statusOf, h5, jsGetS]
      · simp [bookingSourceOf, h6, h7, jsOrS, truthyS, jsGetS]

/-- The payload `{display_id: "BK7"}`, all defaulted fields absent. -/
def payloadBK7 : BookingData :=
  { display_id := some "BK7" }

/-- The canonical record the defaults produce for `payloadBK7`. -/
def recordBK7 : NormalizedBooking :=
  { fareharborId := "BK7", customerEmail := none, customerName := none,
    tourName := none, tourDate := none, passengerCount := 1, amount := 0,
    status := "confirmed", bookingSource := "fareharbor" }

/-- Witness for C4 at the payload `{display_id: "BK7"}`. -/
theorem C4_default_application_witness :
    normalizeBooking payloadBK7 = some recordBK7 ∧
      recordBK7.passengerCount = 1 ∧ recordBK7.amount = 0 ∧
      recordBK7.status = "confirmed" ∧
      recordBK7.bookingSource = "fareharbor" :=
  ⟨by decide,
   C4_default_application payloadBK7 recordBK7 (by decide)
     rfl rfl rfl rfl rfl rfl rfl⟩

/-- C5: the provider booking identifier is resolved by trying `display_id`
first, then `pk`, then `id`; the first non-empty value wins, and the result
equals `display_id` whenever that field is non-empty. -/
theorem C5_identifier_resolution (b : BookingData) :
    (truthyS b.display_id = true → resolveId b = b.display_id) ∧
    (truthyS b.display_id = false → truthyS b.pk = true →
       resolveId b = b.pk) ∧
    (truthyS b.display_id = false → truthyS b.pk = false →
       resolveId b = b.id) := by
  refine ⟨?_, ?_, ?_⟩
  · intro hd
    unfold resolveId
    rw [jsOrS_of_truthy _ hd, jsOrS_of_truthy _ hd]
  · intro hd hp
    unfold resolveId
    rw [jsOrS_of_falsy _ hd, jsOrS_of_truthy _ hp]
  · intro hd hp
    unfold resolveId
    rw [jsOrS_of_falsy _ hd, jsOrS_of_falsy _ hp]

/-- Witness for C5: with all three identifier fields present,
`display_id` wins; with `display_id` empty, `pk` wins; with both empty,
`id` wins. -/
theorem C5_identifier_resolution_witness :
    resolveId { display_id := some "D", pk := some "P", id := some "I" } =
        some "D" ∧
      resolveId { display_id := some "", pk := some "P", id := some "I" } =
        some "P" ∧
      resolveId { display_id := none, pk := some "", id := some "I" } =
        some "I" :=
  ⟨(C5_identifier_resolution _).1 (by decide),
   (C5_identifier_resolution _).2.1 (by decide) (by decide),
   (C5_identifier_resolution _).2.2 (by decide) (by decide)⟩

/-- C2: with no secret configured, verification always passes; with a
secret and no signature, 401; otherwise the hex HMAC-SHA256 digest of the
raw body is compared with the scheme-stripped signature — a match passes,
and any mismatch (including the length-mismatch exception inside
`timingSafeEqual`) yields a 401 rejection, never a propagated error. -/
theorem C2_signature_gate (hmacHex : String → String → String)
    (secret sig : Option String) (body : String) :
    (truthyS secret = false →
       verifyWebhookSignature hmacHex secret sig body = .pass) ∧
    (truthyS secret = true → truthyS sig = false →
       verifyWebhookSignature hmacHex secret sig body =
         .reject401 "No signature provided") ∧
    (truthyS secret = true → truthyS sig = true →
       stripScheme (sig.getD "") = hmacHex (secret.getD "") body →
       verifyWebhookSignature hmacHex secret sig body = .pass) ∧
    (truthyS secret = true → truthyS sig = true →
       stripScheme (sig.getD "") ≠ hmacHex (secret.getD "") body →
       ∃ msg, verifyWebhookSignature hmacHex secret sig body =
         .reject401 msg) := by
  refine ⟨?_, ?_, ?_, ?_⟩
  · intro hs
    simp [verifyWebhookSignature, hs]
  · intro hs hg
    simp [verifyWebhookSignature, hs, hg]
  · intro hs hg heq
    simp only [verifyWebhookSignature, hs, hg]
    rw [← heq]
    simp [timingSafeEqual]
  · intro hs hg hne
    simp only [verifyWebhookSignature, hs, hg]
    by_cases hlen : (hmacHex (secret.getD "") body).length =
        (stripScheme (sig.getD "")).length
    · refine ⟨"Invalid signature", ?_⟩
      have hne' : hmacHex (secret.getD "") body ≠ stripScheme (sig.getD "") :=
        fun h => hne h.symm
      simp [timingSafeEqual, hlen, hne']
    · refine ⟨"Signature verification failed", ?_⟩
      simp [timingSafeEqual, hlen]

/-- A stand-in HMAC hex primitive used only to exercise
`C2_signature_gate` on concrete inputs. -/
def hmacStub (key body : String) : String :=
  key ++ "/" ++ body

/-- Witness for C2: each case of the signature gate at concrete inputs,
under the stand-in digest primitive. -/
theorem C2_signature_gate_witness :
    verifyWebhookSignature hmacStub none (some "anything") "B" = .pass ∧
      verifyWebhookSignature hmacStub (some "S") none "B" =
        .reject401 "No signature provided" ∧
      verifyWebhookSignature hmacStub (some "S")
        (some "sha256=S/B") "B" = .pass ∧
      ∃ msg, verifyWebhookSignature hmacStub (some "S")
        (some "sha256=S/X") "B" = .reject401 msg :=
  ⟨(C2_signature_gate hmacStub none (some "anything") "B").1 (by decide),
   (C2_signature_gate hmacStub (some "S") none "B").2.1 (by decide) (by decide),
   (C2_signature_gate hmacStub (some "S") (some "sha256=S/B") "B").2.2.1
     (by decide) (by decide) (by decide),
   (C2_signature_gate hmacStub (some "S") (some "sha256=S/X") "B").2.2.2
     (by decide) (by decide) (by decide)⟩

/-- The shape-independent logical content of a booking event, used to
compare the two payload shapes the normalizer tolerates. -/
structure LogicalBooking where
  bid : String
  email : String
  cname : String
  tour : String
  date : String
  count : Int
  amt : Int
  stat : String
  src : String
deriving Repr, DecidableEq

/-- The nested payload shape: contact under `contact`, tour under
`availability.item`/`availability.start_datetime`, count under
`customer_count`, amount under `amount`. -/
def nestedPayload (d : LogicalBooking) : BookingData :=
  { display_id := some d.bid
    contact := some { email := some d.email, name := some d.cname }
    availability := some { item := some { name := some d.tour }
                           start_datetime := some d.date }
    customer_count := some d.count
    amount := some d.amt
    status := some d.stat
    booking_source := some d.src }

/-- The legacy flat payload shape: `customer_email`, `customer_name`,
`tour_name`, `tour_date`, `passenger_count`, `price`, `source`. -/
def flatPayload (d : LogicalBooking) : BookingData :=
  { display_id := some d.bid
    customer_email := some d.email
    customer_name := some d.cname
    tour_name := some d.tour
    tour_date := some d.date
    passenger_count := some d.count
    price := some d.amt
    status := some d.stat
    source := some d.src }

/-- C8: a payload with booking fields nested under `contact` /
`availability` and one carrying the same logical data in flat
`customer_email`-style fields normalize to identical canonical records —
the fallback chains consult both shapes. -/
theorem C8_shape_tolerance (d : LogicalBooking) (hbid : d.bid ≠ "")
    (hem : d.email ≠ "") (hcn : d.cname ≠ "") (ht : d.tour ≠ "")
    (hd : d.date ≠ "") :
    normalizeBooking (nestedPayload d) = normalizeBooking (flatPayload d) ∧
      normalizeBooking (nestedPayload d) = some
        { fareharborId := d.bid
          customerEmail := some d.email
          customerName := some d.cname
          tourName := some d.tour
          tourDate := some d.date
          passengerCount := if d.count = 0 then 1 else d.count
          amount := d.amt
          status := if d.stat = "" then "confirmed" else d.stat
          bookingSource := if d.src = "" then "fareharbor" else d.src } := by
  by_cases hc : d.count = 0 <;> by_cases ha : d.amt = 0 <;>
    by_cases hst : d.stat = "" <;> by_cases hsr : d.src = "" <;>
    refine ⟨?_, ?_⟩ <;>
    simp [normalizeBooking, resolveId, customerEmailOf, customerNameOf,
      tourNameOf, tourDateOf, passengerCountOf, amountOf, statusOf,
      bookingSourceOf, nestedPayload, flatPayload, jsOrS, jsGetS, truthyS,
      jsOrN, jsGetN, truthyN, hbid, hem, hcn, ht, hd, hc, ha, hst, hsr]

/-- Concrete logical data exercising C8. -/
def logicalBK9 : LogicalBooking :=
  { bid := "BK9", email := "a@x.io", cname := "Ann", tour := "Reef",
    date := "2024-05-01T09:00", count := 3, amt := 120, stat := "confirmed",
    src := "fareharbor" }

/-- Witness for C8 at concrete logical data. -/
theorem C8_shape_tolerance_witness :
    normalizeBooking (nestedPayload logicalBK9) =
      normalizeBooking (flatPayload logicalBK9) :=
  (C8_shape_tolerance logicalBK9 (by decide) (by decide) (by decide)
    (by decide) (by decide)).1

section PipelineLemmas

lemma processWebhook_created_run (fl : FailureFlags) (db : DB)
    (p : Option BookingData) :
    processWebhook fl db ⟨some "booking.created", p⟩ =
      match handleBookingCreated fl.customerFails fl.bookingFails
          (saveWebhookEvent fl.auditFails db (some "booking.created")
            (jsOrS (p.bind BookingData.display_id) (p.bind BookingData.pk))
            ⟨some "booking.created", p⟩ "success") p with
      | .ok db2 => (db2, ⟨200, "success"⟩)
      | .error _ =>
        (saveWebhookEvent fl.auditFails
          (saveWebhookEvent fl.auditFails db (some "booking.created")
            (jsOrS (p.bind BookingData.display_id) (p.bind BookingData.pk))
            ⟨some "booking.created", p⟩ "success")
          (some "booking.created")
          (jsOrS (p.bind BookingData.display_id) (p.bind BookingData.pk))
          ⟨some "booking.created", p⟩ "error", ⟨500, "error"⟩) := by
  rfl

lemma processWebhook_updated_run (fl : FailureFlags) (db : DB)
    (p : Option BookingData) :
    processWebhook fl db ⟨some "booking.updated", p⟩ =
      match handleBookingUpdated fl.customerFails fl.bookingFails
          (saveWebhookEvent fl.auditFails db (some "booking.updated")
            (jsOrS (p.bind BookingData.display_id) (p.bind BookingData.pk))
            ⟨some "booking.updated", p⟩ "success") p with
      | .ok db2 => (db2, ⟨200, "success"⟩)
      | .error _ =>
        (saveWebhookEvent fl.auditFails
          (saveWebhookEvent fl.auditFails db (some "booking.updated")
            (jsOrS (p.bind BookingData.display_id) (p.bind BookingData.pk))
            ⟨some "booking.updated", p⟩ "success")
          (some "booking.updated")
          (jsOrS (p.bind BookingData.display_id) (p.bind BookingData.pk))
          ⟨some "booking.updated", p⟩ "error", ⟨500, "error"⟩) := by
  rfl

lemma processWebhook_cancelled_run (fl : FailureFlags) (db : DB)
    (p : Option BookingData) :
    processWebhook fl db ⟨some "booking.cancelled", p⟩ =
      (handleBookingCancelled fl.cancelFails
        (saveWebhookEvent fl.auditFails db (some "booking.cancelled")
          (jsOrS (p.bind BookingData.display_id) (p.bind BookingData.pk))
          ⟨some "booking.cancelled", p⟩ "success") p,
       ⟨200, "success"⟩) := by
  rfl

lemma handleBookingUpdated_eq_created :
    handleBookingUpdated = handleBookingCreated := by
  funext cf bf db p
  cases p <;> rfl

lemma handleBookingCreated_ok (cf : Bool) (db : DB) (b : BookingData)
    (n : NormalizedBooking) (hn : normalizeBooking b = some n) :
    handleBookingCreated cf false db (some b) =
      .ok { (saveOrUpdateCustomer cf db (jsOrO b.contact b.customer)).1 with
            bookings := upsertBooking
              ((saveOrUpdateCustomer cf db (jsOrO b.contact b.customer)).1).bookings
              (rowOfBooking n
                ((saveOrUpdateCustomer cf db (jsOrO b.contact b.customer)).2)
                b) } := by
  unfold handleBookingCreated
  dsimp only
  unfold saveBooking
  rw [hn]
  rfl

lemma handleBookingCreated_err (cf : Bool) (db : DB) (b : BookingData)
    (n : NormalizedBooking) (hn : normalizeBooking b = some n) :
    handleBookingCreated cf true db (some b) = .error () := by
  unfold handleBookingCreated
  dsimp only
  unfold saveBooking
  rw [hn]
  rfl

lemma handleBookingCreated_skip (cf bf : Bool) (db : DB) (b : BookingData)
    (hn : normalizeBooking b = none) :
    handleBookingCreated cf bf db (some b) =
      .ok (saveOrUpdateCustomer cf db (jsOrO b.contact b.customer)).1 := by
  unfold handleBookingCreated
  dsimp only
  unfold saveBooking
  rw [hn]

lemma handleBookingCancelled_run (db : DB) (b : BookingData) :
    handleBookingCancelled false db (some b) =
      { db with bookings := cancelUpdate db.bookings (jsOrS b.display_id b.pk) } :=
  rfl

lemma handleBookingCancelled_fail (db : DB) (p : Option BookingData) :
    handleBookingCancelled true db p = db := by
  cases p <;> rfl

lemma normalizeBooking_eq_none (b : BookingData)
    (h : truthyS (resolveId b) = false) : normalizeBooking b = none := by
  unfold normalizeBooking
  cases hres : resolveId b with
  | none => rfl
  | some fid =>
    rw [hres] at h
    unfold truthyS at h
    simp only [decide_eq_false_iff_not, not_not] at h
    simp [h]

lemma upsertBooking_count (rows : List BookingRow) (r : BookingRow)
    (h : countFid rows r.fareharbor_id ≤ 1) :
    countFid (upsertBooking rows r) r.fareharbor_id = 1 := by
  unfold upsertBooking countFid
  by_cases hany : rows.any (fun row => row.fareharbor_id = r.fareharbor_id)
  · rw [if_pos hany]
    have hfix : ∀ row : BookingRow,
        (decide ((if row.fareharbor_id = r.fareharbor_id then
            { row with
                status := r.status, amount := r.amount,
                passenger_count := r.passenger_count,
                customer_email := r.customer_email,
                customer_name := r.customer_name,
                tour_name := r.tour_name,
                tour_date := r.tour_date }
          else row).fareharbor_id = r.fareharbor_id)) =
        decide (row.fareharbor_id = r.fareharbor_id) := by
      intro row
      split <;> rfl
    have hlen : ((rows.map (fun row =>
        if row.fareharbor_id = r.fareharbor_id then
          { row with
              status := r.status, amount := r.amount,
              passenger_count := r.passenger_count,
              customer_email := r.customer_email,
              customer_name := r.customer_name,
              tour_name := r.tour_name,
              tour_date := r.tour_date }
        else row)).filter
          (fun row => row.fareharbor_id = r.fareharbor_id)).length =
        (rows.filter (fun row => row.fareharbor_id = r.fareharbor_id)).length := by
      rw [List.filter_map]
      rw [List.length_map]
      congr 1
      apply List.filter_congr
      intro x _
      exact hfix x
    rw [hlen]
    have hpos : 0 < (rows.filter
        (fun row => row.fareharbor_id = r.fareharbor_id)).length := by
      rw [List.any_eq_true] at hany
      obtain ⟨x, hx, hpx⟩ := hany
      have : x ∈ rows.filter (fun row => row.fareharbor_id = r.fareharbor_id) :=
        List.mem_filter.mpr ⟨hx, hpx⟩
      exact List.length_pos.mpr (List.ne_nil_of_mem this)
    unfold countFid at h
    omega
  · rw [if_neg hany]
    rw [List.filter_append]
    have hnil : rows.filter (fun row => row.fareharbor_id = r.fareharbor_id) = [] := by
      rw [List.filter_eq_nil_iff]
      intro x hx
      rw [List.any_eq_true] at hany
      exact fun hpx => hany ⟨x, hx, hpx⟩
    rw [hnil]
    simp

lemma upsertBooking_fields (rows : List BookingRow) (r : BookingRow) :
    ∀ row ∈ upsertBooking rows r, row.fareharbor_id = r.fareharbor_id →
      row.status = r.status ∧ row.amount = r.amount ∧
      row.passenger_count = r.passenger_count ∧
      row.customer_email = r.customer_email ∧
      row.customer_name = r.customer_name ∧
      row.tour_name = r.tour_name ∧ row.tour_date = r.tour_date := by
  unfold upsertBooking
  by_cases hany : rows.any (fun row => row.fareharbor_id = r.fareharbor_id)
  · rw [if_pos hany]
    intro row hrow hfid
    obtain ⟨x, hx, hux⟩ := List.mem_map.mp hrow
    by_cases hxf : x.fareharbor_id = r.fareharbor_id
    · rw [if_pos hxf] at hux
      subst hux
      exact ⟨rfl, rfl, rfl, rfl, rfl, rfl, rfl⟩
    · rw [if_neg hxf] at hux
      subst hux
      exact absurd hfid hxf
  · rw [if_neg hany]
    intro row hrow hfid
    rcases List.mem_append.mp hrow with hl | hr
    · rw [List.any_eq_true] at hany
      exact absurd ⟨row, hl, by simp [hfid]⟩ hany
    · have : row = r := List.mem_singleton.mp hr
      subst this
      exact ⟨rfl, rfl, rfl, rfl, rfl, rfl, rfl⟩

end PipelineLemmas

/-- C3: a `booking.cancelled` event answers 200, never creates a row,
transitions the status of every row matching the resolved identifier to
`cancelled` while leaving its other fields intact, leaves non-matching rows
untouched, and is a silent no-op when no row matches. -/
theorem C3_cancellation_only_status (db0 : DB) (b : BookingData)
    (cf bf af : Bool) :
    (processWebhook ⟨cf, bf, false, af⟩ db0
        ⟨some "booking.cancelled", some b⟩).2 = ⟨200, "success"⟩ ∧
    (processWebhook ⟨cf, bf, false, af⟩ db0
        ⟨some "booking.cancelled", some b⟩).1.bookings.length =
      db0.bookings.length ∧
    (∀ r ∈ db0.bookings,
       some r.fareharbor_id = jsOrS b.display_id b.pk →
       { r with status := "cancelled" } ∈
         (processWebhook ⟨cf, bf, false, af⟩ db0
           ⟨some "booking.cancelled", some b⟩).1.bookings) ∧
    (∀ r ∈ db0.bookings,
       some r.fareharbor_id ≠ jsOrS b.display_id b.pk →
       r ∈ (processWebhook ⟨cf, bf, false, af⟩ db0
         ⟨some "booking.cancelled", some b⟩).1.bookings) ∧
    ((∀ r ∈ db0.bookings,
        some r.fareharbor_id ≠ jsOrS b.display_id b.pk) →
       (processWebhook ⟨cf, bf, false, af⟩ db0
         ⟨some "booking.cancelled", some b⟩).1.bookings = db0.bookings) := by
  simp only [processWebhook_cancelled_run, handleBookingCancelled_run,
    saveWebhookEvent_bookings, cancelUpdate]
  refine ⟨by trivial, List.length_map _ _, ?_, ?_, ?_⟩
  · intro r hr hmatch
    refine List.mem_map.mpr ⟨r, hr, ?_⟩
    rw [if_pos hmatch]
  · intro r hr hmatch
    refine List.mem_map.mpr ⟨r, hr, ?_⟩
    rw [if_neg hmatch]
  · intro hnone
    have hid : ∀ r ∈ db0.bookings,
        (if some r.fareharbor_id = jsOrS b.display_id b.pk then
          { r with status := "cancelled" } else r) = r := by
      intro r hr
      rw [if_neg (hnone r hr)]
    calc db0.bookings.map (fun r =>
          if some r.fareharbor_id = jsOrS b.display_id b.pk then
            { r with status := "cancelled" } else r)
        = db0.bookings.map id := List.map_congr_left hid
      _ = db0.bookings := List.map_id _

/-- A confirmed booking row `BK100`. -/
def rowBK100 : BookingRow :=
  { fareharbor_id := "BK100", customer_id := some 1,
    customer_email := some "a@example.com",
    customer_name := some "Ann", tour_name := some "Reef",
    tour_date := some "2024-05-01", passenger_count := 2,
    amount := 50, status := "confirmed",
    booking_source := "fareharbor", special_requests := none,
    raw_data := {} }

/-- A database with the single confirmed booking `rowBK100`, used by the
C3 and C9 witnesses. -/
def dbBK100 : DB :=
  { customers := []
    nextCustomerId := 1
    bookings := [rowBK100]
    webhook_events := [] }

/-- Witness for C3: cancelling `BK100` in `dbBK100` answers 200, keeps one
row, and that row reappears with only its status changed. -/
theorem C3_cancellation_only_status_witness :
    (processWebhook ⟨false, false, false, false⟩ dbBK100
        ⟨some "booking.cancelled", some { display_id := some "BK100" }⟩).2 =
      ⟨200, "success"⟩ ∧
    (processWebhook ⟨false, false, false, false⟩ dbBK100
        ⟨some "booking.cancelled", some { display_id := some "BK100" }⟩).1.bookings.length =
      dbBK100.bookings.length ∧
    { rowBK100 with status := "cancelled" } ∈
      (processWebhook ⟨false, false, false, false⟩ dbBK100
        ⟨some "booking.cancelled", some { display_id := some "BK100" }⟩).1.bookings := by
  have h := C3_cancellation_only_status dbBK100
    { display_id := some "BK100" } false false false
  exact ⟨h.1, h.2.1, h.2.2.1 rowBK100 (by decide) (by decide)⟩

/-- C9: a created/updated event whose payload resolves no identifier
(`display_id`, `pk`, `id` all empty) is acknowledged with 200, leaves the
booking rows untouched, raises no error, and still appends an audit
entry. -/
theorem C9_missing_identifier_skips (db0 : DB) (b : BookingData)
    (ev : String) (cf bf : Bool)
    (hev : ev = "booking.created" ∨ ev = "booking.updated")
    (hd : truthyS b.display_id = false) (hp : truthyS b.pk = false)
    (hi : truthyS b.id = false) :
    (processWebhook ⟨cf, bf, false, false⟩ db0 ⟨some ev, some b⟩).2 =
      ⟨200, "success"⟩ ∧
    (processWebhook ⟨cf, bf, false, false⟩ db0
        ⟨some ev, some b⟩).1.bookings = db0.bookings ∧
    (processWebhook ⟨cf, bf, false, false⟩ db0
        ⟨some ev, some b⟩).1.webhook_events.length =
      db0.webhook_events.length + 1 := by
  have hnone : normalizeBooking b = none := by
    apply normalizeBooking_eq_none
    unfold resolveId
    rw [jsOrS_of_falsy _ hd, jsOrS_of_falsy _ hp]
    exact hi
  have main : ∀ db : DB,
      handleBookingCreated cf bf db (some b) =
        .ok (saveOrUpdateCustomer cf db (jsOrO b.contact b.customer)).1 :=
    fun db => handleBookingCreated_skip cf bf db b hnone
  rcases hev with hev | hev <;> subst hev
  · rw [processWebhook_created_run]
    rw [main]
    refine ⟨rfl, ?_, ?_⟩
    · rw [saveOrUpdateCustomer_bookings, saveWebhookEvent_bookings]
    · rw [saveOrUpdateCustomer_events, saveWebhookEvent_false_events]
      simp
  · rw [processWebhook_updated_run]
    rw [handleBookingUpdated_eq_created, main]
    refine ⟨rfl, ?_, ?_⟩
    · rw [saveOrUpdateCustomer_bookings, saveWebhookEvent_bookings]
    · rw [saveOrUpdateCustomer_events, saveWebhookEvent_false_events]
      simp

/-- Witness for C9: a `booking.created` event with an identifier-free
payload against `dbBK100`. -/
theorem C9_missing_identifier_skips_witness :
    (processWebhook ⟨false, false, false, false⟩ dbBK100
        ⟨some "booking.created", some { customer_email := some "a@x.io" }⟩).2 =
      ⟨200, "success"⟩ ∧
    (processWebhook ⟨false, false, false, false⟩ dbBK100
        ⟨some "booking.created",
         some { customer_email := some "a@x.io" }⟩).1.bookings =
      dbBK100.bookings ∧
    (processWebhook ⟨false, false, false, false⟩ dbBK100
        ⟨some "booking.created",
         some { customer_email := some "a@x.io" }⟩).1.webhook_events.length =
      dbBK100.webhook_events.length + 1 :=
  C9_missing_identifier_skips dbBK100 { customer_email := some "a@x.io" }
    "booking.created" false false (Or.inl rfl) (by decide) (by decide)
    (by decide)

/-- C10: a storage failure during the cancellation update is swallowed
inside `handleBookingCancelled`: the request still answers 200/`success`,
the rows are untouched, exactly one audit entry is appended, and no
`error`-status audit entry is written. -/
theorem C10_cancel_failure_invisible (db0 : DB) (b : BookingData)
    (cf bf : Bool) :
    (processWebhook ⟨cf, bf, true, false⟩ db0
        ⟨some "booking.cancelled", some b⟩).2 = ⟨200, "success"⟩ ∧
    (processWebhook ⟨cf, bf, true, false⟩ db0
        ⟨some "booking.cancelled", some b⟩).1.bookings = db0.bookings ∧
    (processWebhook ⟨cf, bf, true, false⟩ db0
        ⟨some "booking.cancelled", some b⟩).1.webhook_events.length =
      db0.webhook_events.length + 1 ∧
    ((processWebhook ⟨cf, bf, true, false⟩ db0
        ⟨some "booking.cancelled", some b⟩).1.webhook_events.filter
          (fun e => e.processing_status = "error")).length =
      (db0.webhook_events.filter
        (fun e => e.processing_status = "error")).length := by
  simp only [processWebhook_cancelled_run, handleBookingCancelled_fail]
  refine ⟨by trivial, ?_, ?_, ?_⟩
  · rw [saveWebhookEvent_bookings]
  · rw [saveWebhookEvent_false_events]
    simp
  · rw [saveWebhookEvent_false_events]
    rw [List.filter_append]
    simp

section PipelineLemmas2

lemma processWebhook_cu_ok_shape (fl : FailureFlags)
    (hbf : fl.bookingFails = false) (db : DB) (b : BookingData)
    (n : NormalizedBooking) (hn : normalizeBooking b = some n) (ev : String)
    (hev : ev = "booking.created" ∨ ev = "booking.updated") :
    ∃ cid, (processWebhook fl db ⟨some ev, some b⟩).1.bookings =
        upsertBooking db.bookings (rowOfBooking n cid b) ∧
      (processWebhook fl db ⟨some ev, some b⟩).2 = ⟨200, "success"⟩ := by
  rcases hev with hev | hev <;> subst hev
  · rw [processWebhook_created_run, hbf,
      handleBookingCreated_ok fl.customerFails _ b n hn]
    dsimp only
    refine ⟨(saveOrUpdateCustomer fl.customerFails
        (saveWebhookEvent fl.auditFails db (some "booking.created")
          (jsOrS ((some b).bind BookingData.display_id)
            ((some b).bind BookingData.pk))
          ⟨some "booking.created", some b⟩ "success")
        (jsOrO b.contact b.customer)).2, ?_, rfl⟩
    rw [saveOrUpdateCustomer_bookings, saveWebhookEvent_bookings]
  · rw [processWebhook_updated_run, hbf, handleBookingUpdated_eq_created,
      handleBookingCreated_ok fl.customerFails _ b n hn]
    dsimp only
    refine ⟨(saveOrUpdateCustomer fl.customerFails
        (saveWebhookEvent fl.auditFails db (some "booking.updated")
          (jsOrS ((some b).bind BookingData.display_id)
            ((some b).bind BookingData.pk))
          ⟨some "booking.updated", some b⟩ "success")
        (jsOrO b.contact b.customer)).2, ?_, rfl⟩
    rw [saveOrUpdateCustomer_bookings, saveWebhookEvent_bookings]

lemma processWebhook_cu_err_shape (fl : FailureFlags)
    (hbf : fl.bookingFails = true) (db : DB) (b : BookingData)
    (n : NormalizedBooking) (hn : normalizeBooking b = some n) (ev : String)
    (hev : ev = "booking.created" ∨ ev = "booking.updated") :
    (processWebhook fl db ⟨some ev, some b⟩).2 = ⟨500, "error"⟩ ∧
      (processWebhook fl db ⟨some ev, some b⟩).1 =
        saveWebhookEvent fl.auditFails
          (saveWebhookEvent fl.auditFails db (some ev)
            (jsOrS b.display_id b.pk) ⟨some ev, some b⟩ "success")
          (some ev) (jsOrS b.display_id b.pk) ⟨some ev, some b⟩ "error" := by
  rcases hev with hev | hev <;> subst hev
  · rw [processWebhook_created_run, hbf,
      handleBookingCreated_err fl.customerFails _ b n hn]
    exact ⟨rfl, rfl⟩
  · rw [processWebhook_updated_run, hbf, handleBookingUpdated_eq_created,
      handleBookingCreated_err fl.customerFails _ b n hn]
    exact ⟨rfl, rfl⟩

lemma handleBookingCreated_ok_events (cf bf : Bool) (db db2 : DB)
    (p : Option BookingData)
    (h : handleBookingCreated cf bf db p = .ok db2) :
    db2.webhook_events = db.webhook_events := by
  cases p with
  | none => exact absurd h (by simp [handleBookingCreated])
  | some b =>
    unfold handleBookingCreated at h
    dsimp only at h
    unfold saveBooking at h
    cases hnb : normalizeBooking b with
    | none =>
      rw [hnb] at h
      injection h with h
      rw [← h, saveOrUpdateCustomer_events]
    | some n =>
      rw [hnb] at h
      cases bf with
      | true => exact absurd h (by simp)
      | false =>
        injection h with h
        rw [← h]
        exact saveOrUpdateCustomer_events _ _ _

lemma handleBookingCancelled_events (fails : Bool) (db : DB)
    (p : Option BookingData) :
    (handleBookingCancelled fails db p).webhook_events = db.webhook_events := by
  cases p <;> cases fails <;> rfl

end PipelineLemmas2

/-- C1: delivering the same `booking.created` event twice (all storage
operations succeeding) leaves exactly one booking row for the resolved
identifier, and that row's mutable fields equal the delivered canonical
values; no duplicate row is created when the identifier is already
present. -/
theorem C1_idempotent_upsert (db0 : DB) (b : BookingData)
    (n : NormalizedBooking) (hn : normalizeBooking b = some n)
    (huniq : countFid db0.bookings n.fareharborId ≤ 1) :
    countFid (processWebhook noFailures
        (processWebhook noFailures db0 ⟨some "booking.created", some b⟩).1
        ⟨some "booking.created", some b⟩).1.bookings n.fareharborId = 1 ∧
    ∀ r ∈ (processWebhook noFailures
        (processWebhook noFailures db0 ⟨some "booking.created", some b⟩).1
        ⟨some "booking.created", some b⟩).1.bookings,
      r.fareharbor_id = n.fareharborId →
        r.status = n.status ∧ r.amount = n.amount ∧
        r.passenger_count = n.passengerCount ∧
        r.customer_email = n.customerEmail ∧
        r.customer_name = n.customerName ∧
        r.tour_name = n.tourName ∧ r.tour_date = n.tourDate := by
  obtain ⟨cid1, h1, -⟩ := processWebhook_cu_ok_shape noFailures rfl db0 b n hn
    "booking.created" (Or.inl rfl)
  obtain ⟨cid2, h2, -⟩ := processWebhook_cu_ok_shape noFailures rfl
    (processWebhook noFailures db0 ⟨some "booking.created", some b⟩).1 b n hn
    "booking.created" (Or.inl rfl)
  rw [h2, h1]
  have hc1 : countFid (upsertBooking db0.bookings (rowOfBooking n cid1 b))
      n.fareharborId = 1 :=
    upsertBooking_count db0.bookings (rowOfBooking n cid1 b) huniq
  constructor
  · exact upsertBooking_count _ (rowOfBooking n cid2 b) (le_of_eq hc1)
  · intro r hr hfid
    exact upsertBooking_fields _ (rowOfBooking n cid2 b) r hr hfid

/-- The payload of the C1/C6/C7 exercises: `BK100` with a contact. -/
def payloadBK100 : BookingData :=
  { display_id := some "BK100"
    contact := some { email := some "a@example.com", name := some "Ann" }
    amount := some 50 }

/-- The canonical record of `payloadBK100`. -/
def recordBK100 : NormalizedBooking :=
  { fareharborId := "BK100", customerEmail := some "a@example.com",
    customerName := some "Ann", tourName := none, tourDate := none,
    passengerCount := 1, amount := 50, status := "confirmed",
    bookingSource := "fareharbor" }

/-- The empty store. -/
def dbEmpty : DB :=
  { customers := [], nextCustomerId := 1, bookings := [], webhook_events := [] }

/-- Witness for C1: two identical `booking.created` deliveries of
`payloadBK100` into the empty store leave exactly one `BK100` row whose
status is `confirmed` and amount 50. -/
theorem C1_idempotent_upsert_witness :
    normalizeBooking payloadBK100 = some recordBK100 ∧
      countFid (processWebhook noFailures
          (processWebhook noFailures dbEmpty
            ⟨some "booking.created", some payloadBK100⟩).1
          ⟨some "booking.created", some payloadBK100⟩).1.bookings
        "BK100" = 1 := by
  refine ⟨by decide, ?_⟩
  exact (C1_idempotent_upsert dbEmpty payloadBK100 recordBK100 (by decide)
    (by decide)).1

/-- C6: a storage failure in the booking upsert propagates — the request
answers 500 and the last audit entry has status `error` — whereas a
storage failure in the customer upsert is caught locally: it returns a
null customer reference without touching the store, the booking upsert
still runs, and the request answers 200. -/
theorem C6_failure_asymmetry (db0 : DB) (b : BookingData)
    (n : NormalizedBooking) (ev : String)
    (hev : ev = "booking.created" ∨ ev = "booking.updated")
    (hn : normalizeBooking b = some n)
    (huniq : countFid db0.bookings n.fareharborId ≤ 1) :
    (processWebhook ⟨false, true, false, false⟩ db0 ⟨some ev, some b⟩).2 =
      ⟨500, "error"⟩ ∧
    (∃ e, (processWebhook ⟨false, true, false, false⟩ db0
        ⟨some ev, some b⟩).1.webhook_events.getLast? = some e ∧
       e.processing_status = "error") ∧
    (∀ cd, saveOrUpdateCustomer true db0 cd = (db0, none)) ∧
    (processWebhook ⟨true, false, false, false⟩ db0 ⟨some ev, some b⟩).2 =
      ⟨200, "success"⟩ ∧
    countFid (processWebhook ⟨true, false, false, false⟩ db0
        ⟨some ev, some b⟩).1.bookings n.fareharborId = 1 := by
  obtain ⟨hresp, hdb⟩ := processWebhook_cu_err_shape
    ⟨false, true, false, false⟩ rfl db0 b n hn ev hev
  obtain ⟨cid, hb, hok⟩ := processWebhook_cu_ok_shape
    ⟨true, false, false, false⟩ rfl db0 b n hn ev hev
  refine ⟨hresp, ?_, fun cd => saveOrUpdateCustomer_fails db0 cd, hok, ?_⟩
  · refine ⟨⟨some ev, jsOrS b.display_id b.pk, ⟨some ev, some b⟩, "error"⟩,
      ?_, rfl⟩
    rw [hdb]
    rw [saveWebhookEvent_false_events]
    exact List.getLast?_concat _
  · rw [hb]
    exact upsertBooking_count _ (rowOfBooking n cid b) huniq

/-- Witness for C6 at `payloadBK100` over the empty store. -/
theorem C6_failure_asymmetry_witness :
    (processWebhook ⟨false, true, false, false⟩ dbEmpty
        ⟨some "booking.created", some payloadBK100⟩).2 = ⟨500, "error"⟩ ∧
      saveOrUpdateCustomer true dbEmpty (some { email := some "a@x.io" }) =
        (dbEmpty, none) ∧
      (processWebhook ⟨true, false, false, false⟩ dbEmpty
        ⟨some "booking.created", some payloadBK100⟩).2 = ⟨200, "success"⟩ := by
  have h := C6_failure_asymmetry dbEmpty payloadBK100 recordBK100
    "booking.created" (Or.inl rfl) (by decide) (by decide)
  exact ⟨h.1, h.2.2.1 (some { email := some "a@x.io" }), h.2.2.2.1⟩

/-- The `booking.created` request used to refute C7 as stated. -/
def bodyBK1 : RequestBody :=
  ⟨some "booking.created", some { display_id := some "BK1" }⟩

/-- Counterexample to C7 as stated: a request whose booking upsert fails
(audit inserts succeeding) appends two audit entries — the `success` entry
written before dispatch plus the `error` entry written in the catch — not
exactly one. -/
theorem C7_two_entries_on_failure :
    (processWebhook ⟨false, true, false, false⟩ dbEmpty
        bodyBK1).1.webhook_events.length = 2 ∧
      ¬ (processWebhook ⟨false, true, false, false⟩ dbEmpty
          bodyBK1).1.webhook_events.length = 1 := by
  constructor <;> decide

/-- C7 amended: when audit inserts succeed, a request that answers 200
appends exactly one audit entry, and a request that answers 500 appends
exactly two (one `success` entry at receipt, one `error` entry from the
catch). -/
theorem C7_audit_entries_per_request (fl : FailureFlags)
    (hau : fl.auditFails = false) (db0 : DB) (body : RequestBody) :
    ((processWebhook fl db0 body).2.code = 200 →
       (processWebhook fl db0 body).1.webhook_events.length =
         db0.webhook_events.length + 1) ∧
    ((processWebhook fl db0 body).2.code = 500 →
       (processWebhook fl db0 body).1.webhook_events.length =
         db0.webhook_events.length + 2) := by
  obtain ⟨et, p⟩ := body
  by_cases h1 : et = some "booking.created"
  · subst h1
    rw [processWebhook_created_run]
    cases hh : handleBookingCreated fl.customerFails fl.bookingFails
        (saveWebhookEvent fl.auditFails db0 (some "booking.created")
          (jsOrS (p.bind BookingData.display_id) (p.bind BookingData.pk))
          ⟨some "booking.created", p⟩ "success") p with
    | ok db2 =>
      dsimp only
      refine ⟨fun _ => ?_, fun hcode => absurd hcode (by decide)⟩
      rw [handleBookingCreated_ok_events _ _ _ _ _ hh, hau,
        saveWebhookEvent_false_events]
      simp
    | error e =>
      dsimp only
      refine ⟨fun hcode => absurd hcode (by decide), fun _ => ?_⟩
      rw [hau, saveWebhookEvent_false_events, saveWebhookEvent_false_events]
      simp
  · by_cases h2 : et = some "booking.updated"
    · subst h2
      rw [processWebhook_updated_run, handleBookingUpdated_eq_created]
      cases hh : handleBookingCreated fl.customerFails fl.bookingFails
          (saveWebhookEvent fl.auditFails db0 (some "booking.updated")
            (jsOrS (p.bind BookingData.display_id) (p.bind BookingData.pk))
            ⟨some "booking.updated", p⟩ "success") p with
      | ok db2 =>
        dsimp only
        refine ⟨fun _ => ?_, fun hcode => absurd hcode (by decide)⟩
        rw [handleBookingCreated_ok_events _ _ _ _ _ hh, hau,
          saveWebhookEvent_false_events]
        simp
      | error e =>
        dsimp only
        refine ⟨fun hcode => absurd hcode (by decide), fun _ => ?_⟩
        rw [hau, saveWebhookEvent_false_events, saveWebhookEvent_false_events]
        simp
    · by_cases h3 : et = some "booking.cancelled"
      · subst h3
        rw [processWebhook_cancelled_run]
        dsimp only
        refine ⟨fun _ => ?_, fun hcode => absurd hcode (by decide)⟩
        rw [handleBookingCancelled_events, hau, saveWebhookEvent_false_events]
        simp
      · have hrun : processWebhook fl db0 ⟨et, p⟩ =
            (saveWebhookEvent fl.auditFails db0 et
              (jsOrS (p.bind BookingData.display_id) (p.bind BookingData.pk))
              ⟨et, p⟩ "success", ⟨200, "success"⟩) := by
          unfold processWebhook
          dsimp only
          rw [if_neg (by simpa using h1), if_neg (by simpa using h2),
            if_neg (by simpa using h3)]
        rw [hrun]
        dsimp only
        refine ⟨fun _ => ?_, fun hcode => absurd hcode (by decide)⟩
        rw [hau, saveWebhookEvent_false_events]
        simp

/-- Witness for the amended C7: a successful and a failing request over
the empty store append one and two audit entries respectively. -/
theorem C7_audit_entries_per_request_witness :
    ((processWebhook ⟨false, false, false, false⟩ dbEmpty
        bodyBK1).2.code = 200 ∧
      (processWebhook ⟨false, false, false, false⟩ dbEmpty
        bodyBK1).1.webhook_events.length =
        dbEmpty.webhook_events.length + 1) ∧
    ((processWebhook ⟨false, true, false, false⟩ dbEmpty
        bodyBK1).2.code = 500 ∧
      (processWebhook ⟨false, true, false, false⟩ dbEmpty
        bodyBK1).1.webhook_events.length =
        dbEmpty.webhook_events.length + 2) :=
  ⟨⟨by decide,
    (C7_audit_entries_per_request ⟨false, false, false, false⟩ rfl dbEmpty
      bodyBK1).1 (by decide)⟩,
   ⟨by decide,
    (C7_audit_entries_per_request ⟨false, true, false, false⟩ rfl dbEmpty
      bodyBK1).2 (by decide)⟩⟩

end Webhook
